import Mathlib

/-!
Verification of the audio capture / waveform pipeline of the
steam-intro-desktop application (src/main.rs).

The embedding models the parts of the program the specification talks
about: the std mpsc channel carrying sample blocks from the capture
callback to the renderer, the capture callback `input_data_fn`, the
renderer `Waveform::draw` (its path construction and its amplitude
mapping), and the message handlers of the iced `App` (`ShowOutputModal`,
`SelectedDevice`, and the Escape key branch of `Event`).

Floating point samples and pixel coordinates are embedded as rationals;
the arithmetic the claims are about (multiplication by the bounds,
halving, addition) is exact on the inputs considered.  The state of the
mpsc channel is the FIFO queue of blocks that have been sent but not yet
received, together with a flag telling whether the opposite endpoint is
still alive.  A Rust panic (an `unwrap`/`expect` on an error value) is
modelled by `Option.none` or by a dedicated `panicked` outcome; a
blocking call that cannot return yet is modelled by a dedicated
`blocked` outcome.  Side effects of the message handlers are recorded in
an explicit trace of actions in program order, so ordering claims can be
stated about them.
-/

namespace SteamIntro

/-- A sample block: the `Vec<f32>` of normalized amplitudes produced by one
capture callback invocation, embedded with rational samples. -/
abbrev SampleBlock := List ℚ

/-- State of the `std::sync::mpsc` channel of sample blocks created at
`mpsc::channel()` (main.rs line 118 and line 200): the FIFO queue of blocks
sent but not yet received (oldest first), plus whether the opposite
endpoint of the channel is still alive. -/
structure Channel where
  queue : List SampleBlock
  connected : Bool
deriving DecidableEq

/-- The operation `mpsc::Sender::send` on an unbounded channel: never blocks; enqueues the
block at the back and returns `true` (`Ok`) when the receiver is alive, and
returns `false` (`Err`, block not enqueued) when the receiver was dropped. -/
def Channel.send (c : Channel) (b : SampleBlock) : Channel × Bool :=
  if c.connected then ({ c with queue := c.queue ++ [b] }, true) else (c, false)

/-- Possible outcomes of the consumer-side read `rx.recv().unwrap()`
(main.rs line 40). -/
inductive RecvOutcome
  | got (b : SampleBlock) (rest : List SampleBlock)
  | blocked
  | panicked
deriving DecidableEq

/-- The read `mpsc::Receiver::recv` followed by `unwrap` (main.rs line 40): returns the
OLDEST queued block when one is available; on an empty queue it blocks until
a sender sends while the sender is alive, and the `unwrap` panics once the
queue is empty and the sender was dropped (`RecvError`). -/
def Channel.recv (c : Channel) : RecvOutcome :=
  match c.queue with
  | b :: rest => .got b rest
  | [] => if c.connected then .blocked else .panicked

/-- The capture callback `input_data_fn` (main.rs lines 150-154): copies the callback slice
element for element into a fresh vector and sends it down the channel; the
trailing `unwrap` panics (`none`) exactly when `send` returned `Err`. -/
def input_data_fn (data : SampleBlock) (tx : Channel) : Option Channel :=
  let output_data := data.map (fun sample => sample)
  let r := tx.send output_data
  if r.2 then some r.1 else none

/-- Iterated capture callbacks with no intervening receive: the flood-send
pattern of the backpressure property.  `none` propagates a panic of any
single send. -/
def sendAll (c : Channel) : List SampleBlock → Option Channel
  | [] => some c
  | d :: ds =>
    match input_data_fn d c with
    | some c2 => sendAll c2 ds
    | none => none

/-- The part of the iced `Rectangle` that `Waveform::draw` reads:
`bounds.width` and `bounds.height` (the frame is created from
`bounds.size()`, so coordinates are local to the frame). -/
structure Rectangle where
  width : ℚ
  height : ℚ
deriving DecidableEq

/-- A point of the canvas path. -/
structure Point where
  x : ℚ
  y : ℚ
deriving DecidableEq

/-- One operation recorded into the `path::Builder` by `Waveform::draw`:
`move_to` for the first sample, `line_to` for every later sample. -/
inductive PathOp
  | move_to (p : Point)
  | line_to (p : Point)
deriving DecidableEq

/-- The point carried by a path operation. -/
def PathOp.point : PathOp → Point
  | .move_to p => p
  | .line_to p => p

/-- The amplitude-to-y mapping of main.rs line 49:
`y = (v * bounds.height) / 2. + bounds.height / 2.`. -/
def sampleY (bounds : Rectangle) (v : ℚ) : ℚ :=
  v * bounds.height / 2 + bounds.height / 2

/-- The loop of main.rs lines 48-58, with the running x coordinate written
in closed form: at loop index `i` the accumulator `x` holds
`i * slice_width`.  Index 0 produces a `move_to`, every later index a
`line_to`. -/
def drawPathAux (bounds : Rectangle) (slice_width : ℚ) : Nat → List ℚ → List PathOp
  | _, [] => []
  | i, v :: rest =>
    (if i = 0 then PathOp.move_to { x := (i : ℚ) * slice_width, y := sampleY bounds v }
     else PathOp.line_to { x := (i : ℚ) * slice_width, y := sampleY bounds v }) ::
      drawPathAux bounds slice_width (i + 1) rest

/-- The path built by `Waveform::draw` (main.rs lines 44-60) for one data
block: `slice_width = bounds.width / data.len()`, then one path operation
per sample.  (For the empty block the division by zero is never consumed,
exactly as in the source where the loop body never runs.) -/
def drawPath (data : List ℚ) (bounds : Rectangle) : List PathOp :=
  drawPathAux bounds (bounds.width / (data.length : ℚ)) 0 data

/-- Number of line segments of a built path: the count of `line_to`
operations. -/
def lineSegments : List PathOp → Nat
  | [] => 0
  | PathOp.line_to _ :: rest => lineSegments rest + 1
  | PathOp.move_to _ :: rest => lineSegments rest

/-- The `Waveform` canvas program (main.rs lines 26-28): it holds the
receiving end of the frame channel. -/
structure Waveform where
  rx : Channel

/-- Outcome of one `Waveform::draw` call: either the produced geometry
together with the channel state after the read, or the draw is blocked
waiting on `recv`, or it panicked on the `unwrap`. -/
inductive DrawOutcome
  | geometry (ops : List PathOp) (rest : Channel)
  | blocked
  | panicked
deriving DecidableEq

/-- The renderer `Waveform::draw` (main.rs lines 33-67): first reads a block with
`self.rx.recv().unwrap()` — blocking, and panicking when the channel is
disconnected — then builds the path for the received block. -/
def Waveform.draw (w : Waveform) (bounds : Rectangle) : DrawOutcome :=
  match w.rx.recv with
  | .got data rest => .geometry (drawPath data bounds) { queue := rest, connected := w.rx.connected }
  | .blocked => .blocked
  | .panicked => .panicked

/-- The two pages of the application (main.rs lines 81-84). -/
inductive Page
  | Main
  | Waveform
deriving DecidableEq

/-- The two theme values the program ever assigns: `Theme::Dark`
(default and Escape on the main page) and the custom green-background
light palette (device selection and Escape on the waveform page). -/
inductive ThemeModel
  | dark
  | customGreenLight
deriving DecidableEq

/-- An active cpal input stream, identified for the model by a creation
counter and the name of the device it was built on. -/
structure StreamModel where
  id : Nat
  device : String
deriving DecidableEq

/-- The fields of `App` (main.rs lines 103-114) that the modelled handlers
touch.  The sender/receiver pair is modelled as one `Channel` plus a
creation counter `channel_id` so that replacing the pair is observable;
`next_id` feeds fresh ids to new channels and streams. -/
structure AppState where
  theme : ThemeModel
  show_output_modal : Bool
  output_device_names : List String
  page : Page
  output_stream : Option StreamModel
  channel_id : Nat
  channel : Channel
  next_id : Nat
deriving DecidableEq

/-- Observable side effects of the message handlers, recorded in program
order. -/
inductive Action
  | hideModal
  | pauseStream (id : Nat)
  | newChannel (id : Nat)
  | buildStream (device : String)
  | playStream (id : Nat)
  | setPageWaveform
  | setPageMain
  | setTheme
deriving DecidableEq

/-- Whether an action pauses (stops) a stream. -/
def Action.isPause : Action → Bool
  | .pauseStream _ => true
  | _ => false

/-- Whether an action builds (opens) a stream. -/
def Action.isBuild : Action → Bool
  | .buildStream _ => true
  | _ => false

/-- Whether an action starts playback of a stream. -/
def Action.isPlay : Action → Bool
  | .playStream _ => true
  | _ => false

/-- The `Message::ShowOutputModal` handler (main.rs lines 179-188): sets the
modal flag, then enumerates the host output devices and collects their
names; the `unwrap` on `output_devices()` panics (`none`) when the host
cannot be queried.  `hostDevices` is the outcome of the host query. -/
def showOutputModal (app : AppState) (hostDevices : Except Unit (List String)) : Option AppState :=
  let app1 := { app with show_output_modal := true }
  match hostDevices with
  | .ok names => some { app1 with output_device_names := names }
  | .error _ => none

/-- Outcome of the `Message::SelectedDevice` handler: the new state and the
trace of effects, or a panic carrying the effects performed before it. -/
inductive SelectOutcome
  | ok (app : AppState) (trace : List Action)
  | panicked (trace : List Action)
deriving DecidableEq

/-- Second half of the `SelectedDevice` handler (main.rs lines 205-242):
look the chosen name up among the host output devices — the `unwrap` on
`output_devices()` and the `expect` on `find` panic when enumeration fails
or no device matches — then build an input stream on the found device,
play it, switch to the waveform page and set the custom theme. -/
def selectFind (app : AppState) (hostDevices : Except Unit (List String)) (device : String)
    (tr : List Action) : SelectOutcome :=
  match hostDevices with
  | .error _ => .panicked tr
  | .ok names =>
    match names.find? (fun n => n == device) with
    | none => .panicked tr
    | some dname =>
      .ok { app with
              output_stream := some { id := app.next_id, device := dname },
              next_id := app.next_id + 1,
              page := Page.Waveform,
              theme := ThemeModel.customGreenLight }
        (tr ++ [Action.buildStream dname, Action.playStream app.next_id,
                Action.setPageWaveform, Action.setTheme])

/-- The `Message::SelectedDevice` handler (main.rs lines 194-243): hide the
modal; if a stream is already active, pause it and replace the channel pair
with a fresh `mpsc::channel()`; then proceed to device lookup and stream
construction (`selectFind`). -/
def selectedDevice (app : AppState) (hostDevices : Except Unit (List String))
    (device : String) : SelectOutcome :=
  match app.output_stream with
  | some s =>
    selectFind
      { app with
          show_output_modal := false,
          channel_id := app.next_id,
          channel := { queue := [], connected := true },
          next_id := app.next_id + 1 }
      hostDevices device
      [Action.hideModal, Action.pauseStream s.id, Action.newChannel app.next_id]
  | none =>
    selectFind { app with show_output_modal := false } hostDevices device [Action.hideModal]

/-- The Escape branch of the `Message::Event` handler (main.rs lines
255-276): on the main page hide the modal and reset the theme to dark; on
the waveform page switch the page back to main and set the custom theme.
Nothing else is touched. -/
def escapePressed (app : AppState) : AppState × List Action :=
  match app.page with
  | Page.Main =>
    ({ app with show_output_modal := false, theme := ThemeModel.dark },
     [Action.hideModal, Action.setTheme])
  | Page.Waveform =>
    ({ app with page := Page.Main, theme := ThemeModel.customGreenLight },
     [Action.setPageMain, Action.setTheme])

/-- The initial `App::default()` state (main.rs lines 116-144), with test
ids: fresh empty channel with id 0, no stream, main page, dark theme. -/
def app0 : AppState :=
  { theme := ThemeModel.dark
    show_output_modal := false
    output_device_names := []
    page := Page.Main
    output_stream := none
    channel_id := 0
    channel := { queue := [], connected := true }
    next_id := 1 }

/-- A state in which a capture session is active on device "Mic" and the
waveform page is shown. -/
def appCapturing : AppState :=
  { app0 with
      page := Page.Waveform
      theme := ThemeModel.customGreenLight
      output_stream := some { id := 5, device := "Mic" } }

/-- Flood-sending any list of blocks into a connected channel succeeds: every
single send returns `Ok`, and the blocks line up behind the existing queue
in order. -/
theorem sendAll_connected (bs : List SampleBlock) :
    ∀ c : Channel, c.connected = true →
      sendAll c bs = some { queue := c.queue ++ bs, connected := true } := by
  induction bs with
  | nil =>
    intro c h
    obtain ⟨q, conn⟩ := c
    simp only at h
    subst h
    simp [sendAll]
  | cons b bs ih =>
    intro c h
    have hstep : input_data_fn b c = some { queue := c.queue ++ [b], connected := true } := by
      obtain ⟨q, conn⟩ := c
      simp only at h
      subst h
      simp [input_data_fn, Channel.send, List.map_id']
    simp only [sendAll, hstep]
    rw [ih { queue := c.queue ++ [b], connected := true } rfl]
    simp

/-- C1 (counterexample): the claim says the per-tick consumer read returns
immediately with an empty NoNewData result when no block is queued.  On the
code it does not: with an empty queue and a live producer, the `recv` inside
`Waveform::draw` blocks the render thread. -/
theorem c1_counterexample :
    Waveform.draw { rx := { queue := [], connected := true } } { width := 100, height := 50 } =
      DrawOutcome.blocked := rfl

/-- C1 (amended): the consumer-side read inside `Waveform::draw` is the
blocking `recv().unwrap()`: on an empty queue it blocks while the producer
is alive and panics once the producer is gone; it returns without waiting
exactly when a block is queued, and then yields the geometry of the oldest
queued block.  There is no NoNewData result. -/
theorem c1_draw_read_blocks (c : Channel) (bounds : Rectangle) :
    (c.queue = [] → c.connected = true →
      Waveform.draw { rx := c } bounds = DrawOutcome.blocked) ∧
    (c.queue = [] → c.connected = false →
      Waveform.draw { rx := c } bounds = DrawOutcome.panicked) ∧
    (∀ b rest, c.queue = b :: rest →
      Waveform.draw { rx := c } bounds =
        DrawOutcome.geometry (drawPath b bounds) { queue := rest, connected := c.connected }) := by
  obtain ⟨q, conn⟩ := c
  refine ⟨?_, ?_, ?_⟩
  · intro hq hc
    simp only at hq hc
    subst hq; subst hc
    rfl
  · intro hq hc
    simp only at hq hc
    subst hq; subst hc
    rfl
  · intro b rest hq
    simp only at hq
    subst hq
    rfl

/-- C1 (witness). -/
theorem c1_witness :
    Waveform.draw { rx := { queue := [[1]], connected := true } } { width := 4, height := 2 } =
      DrawOutcome.geometry (drawPath [1] { width := 4, height := 2 })
        { queue := [], connected := true } :=
  (c1_draw_read_blocks { queue := [[1]], connected := true } { width := 4, height := 2 }).2.2
    [1] [] rfl

/-- C2 (counterexample): after sending block [3] and then block [7] with no
intervening receive, the next receive returns the OLDER block [3] — not the
most recent [7] — and [7] stays queued to be returned by the following
receive, so older blocks are neither discarded nor skipped. -/
theorem c2_counterexample :
    sendAll { queue := [], connected := true } [[3], [7]] =
      some { queue := [[3], [7]], connected := true } ∧
    Channel.recv { queue := [[3], [7]], connected := true } = RecvOutcome.got [3] [[7]] ∧
    RecvOutcome.got ([3] : SampleBlock) [[7]] ≠ RecvOutcome.got [7] [] := by
  refine ⟨rfl, rfl, ?_⟩
  decide

/-- C2 (amended): the channel is a FIFO queue, not a latest-only slot: two
sends with no intervening receive leave both blocks queued in order, the
next receive returns the OLDEST of them with the newer one still queued,
and a later receive returns the newer one.  No block is discarded. -/
theorem c2_fifo_not_latest (c : Channel) (b1 b2 : SampleBlock)
    (h1 : c.connected = true) (h2 : c.queue = []) :
    sendAll c [b1, b2] = some { queue := [b1, b2], connected := true } ∧
    Channel.recv { queue := [b1, b2], connected := true } = RecvOutcome.got b1 [b2] ∧
    Channel.recv { queue := [b2], connected := true } = RecvOutcome.got b2 [] := by
  refine ⟨?_, rfl, rfl⟩
  rw [sendAll_connected [b1, b2] c h1, h2]
  simp

/-- C2 (witness). -/
theorem c2_witness :
    sendAll { queue := [], connected := true } [[1], [2]] =
      some { queue := [[1], [2]], connected := true } ∧
    Channel.recv { queue := [[1], [2]], connected := true } = RecvOutcome.got [1] [[2]] ∧
    Channel.recv { queue := [[2]], connected := true } = RecvOutcome.got [2] [] :=
  c2_fifo_not_latest { queue := [], connected := true } [1] [2] rfl rfl

/-- C3: the producer-side send of the capture callback never blocks and
never panics under backpressure.  The channel is an unbounded std mpsc
channel, so `send` is modelled by a total function (it has no blocked
outcome); as long as the receiving endpoint is alive, any number of
capture-callback sends with no intervening receive all return `Ok`, so the
`unwrap` in `input_data_fn` never panics, and every sent block is retained
in order. -/
theorem c3_flood_send_never_panics (c : Channel) (h : c.connected = true)
    (bs : List SampleBlock) :
    sendAll c bs = some { queue := c.queue ++ bs, connected := true } :=
  sendAll_connected bs c h

/-- C3 (witness). -/
theorem c3_witness :
    sendAll { queue := [], connected := true } [[1], [2], [3]] =
      some { queue := [[1], [2], [3]], connected := true } :=
  c3_flood_send_never_panics { queue := [], connected := true } rfl [[1], [2], [3]]

/-- C4: a send of block `data` into a drained channel, followed by the
consumer read before any further send, delivers exactly `data` to the
consumer, element for element — `input_data_fn` copies the callback slice
with the identity map and `recv` returns the very block that was sent. -/
theorem c4_send_then_recv_roundtrip (data : SampleBlock) (c : Channel)
    (h1 : c.connected = true) (h2 : c.queue = []) :
    input_data_fn data c = some { queue := [data], connected := true } ∧
    Channel.recv { queue := [data], connected := true } = RecvOutcome.got data [] := by
  obtain ⟨q, conn⟩ := c
  simp only at h1 h2
  subst h1; subst h2
  exact ⟨by simp [input_data_fn, Channel.send, List.map_id'], rfl⟩

/-- C4 (witness): the spec scenario block [0, 1, -1, 0]. -/
theorem c4_witness :
    input_data_fn [0, 1, -1, 0] { queue := [], connected := true } =
      some { queue := [[0, 1, -1, 0]], connected := true } ∧
    Channel.recv { queue := [[0, 1, -1, 0]], connected := true } =
      RecvOutcome.got [0, 1, -1, 0] [] :=
  c4_send_then_recv_roundtrip [0, 1, -1, 0] { queue := [], connected := true } rfl rfl

/-- The loop emits exactly one path operation per sample, whatever the
starting index. -/
theorem drawPathAux_length (bounds : Rectangle) (w : ℚ) (data : List ℚ) :
    ∀ i : Nat, (drawPathAux bounds w i data).length = data.length := by
  induction data with
  | nil => intro i; rfl
  | cons v rest ih =>
    intro i
    simp only [drawPathAux, List.length_cons, ih (i + 1)]

/-- From any nonzero starting index every emitted operation is a `line_to`,
so the loop contributes one segment per sample. -/
theorem drawPathAux_segments (bounds : Rectangle) (w : ℚ) (data : List ℚ) :
    ∀ i : Nat, i ≠ 0 → lineSegments (drawPathAux bounds w i data) = data.length := by
  induction data with
  | nil => intro i _; rfl
  | cons v rest ih =>
    intro i hi
    simp only [drawPathAux, if_neg hi, lineSegments, List.length_cons]
    rw [ih (i + 1) (Nat.succ_ne_zero i)]

/-- C5: the path built for a block of N samples has exactly N points and
max(N-1, 0) line segments (`data.length - 1` in truncated Nat subtraction);
the empty block builds the empty path (nothing is drawn, no error), and a
one-sample block builds a single `move_to` point with no line segment. -/
theorem c5_segment_counts (data : List ℚ) (bounds : Rectangle) :
    (drawPath data bounds).length = data.length ∧
    lineSegments (drawPath data bounds) = data.length - 1 ∧
    (data = [] → drawPath data bounds = []) ∧
    (∀ v : ℚ, drawPath [v] bounds =
      [PathOp.move_to { x := 0, y := sampleY bounds v }]) := by
  refine ⟨drawPathAux_length bounds _ data 0, ?_, ?_, ?_⟩
  · cases data with
    | nil => rfl
    | cons v rest =>
      simp only [drawPath, drawPathAux, if_pos rfl, lineSegments, List.length_cons,
        Nat.add_sub_cancel]
      exact drawPathAux_segments bounds _ rest 1 (Nat.one_ne_zero)
  · intro h
    subst h
    rfl
  · intro v
    simp [drawPath, drawPathAux]

/-- C5 (witness): the empty block builds empty geometry. -/
theorem c5_witness : drawPath [] { width := 4, height := 2 } = [] :=
  (c5_segment_counts [] { width := 4, height := 2 }).2.2.1 rfl

/-- C6: the amplitude-to-y mapping `y = v * h / 2 + h / 2` of the renderer
is affine, symmetric about the vertical center, and monotone in the
amplitude; sample value 0 maps to the vertical center h / 2, values 1 and
-1 map to the two vertical extremes h and 0 of the frame, and every
amplitude in [-1, 1] lands inside [0, h]; rendering the spec block
[0, 1, -1, 0] yields a 4-point polyline whose 2nd and 3rd points sit at the
two vertical extremes. -/
theorem c6_amplitude_mapping (bounds : Rectangle) (h : 0 ≤ bounds.height) :
    sampleY bounds 0 = bounds.height / 2 ∧
    sampleY bounds 1 = bounds.height ∧
    sampleY bounds (-1) = 0 ∧
    (∀ v : ℚ, sampleY bounds v = bounds.height / 2 * v + bounds.height / 2) ∧
    (∀ v : ℚ, sampleY bounds v - bounds.height / 2 =
      -(sampleY bounds (-v) - bounds.height / 2)) ∧
    (∀ v w : ℚ, v ≤ w → sampleY bounds v ≤ sampleY bounds w) ∧
    (∀ v : ℚ, -1 ≤ v → v ≤ 1 →
      0 ≤ sampleY bounds v ∧ sampleY bounds v ≤ bounds.height) ∧
    (drawPath [0, 1, -1, 0] bounds).map (fun op => op.point.y) =
      [bounds.height / 2, bounds.height, 0, bounds.height / 2] := by
  have hmono : ∀ v w : ℚ, v ≤ w → sampleY bounds v ≤ sampleY bounds w := by
    intro v w hvw
    have hm := mul_le_mul_of_nonneg_right hvw h
    simp only [sampleY]
    linarith
  have h0 : sampleY bounds 0 = bounds.height / 2 := by
    simp only [sampleY]; ring
  have hp : sampleY bounds 1 = bounds.height := by
    simp only [sampleY]; ring
  have hn : sampleY bounds (-1) = 0 := by
    simp only [sampleY]; ring
  refine ⟨h0, hp, hn, fun v => by simp only [sampleY]; ring,
    fun v => by simp only [sampleY]; ring, hmono, ?_, ?_⟩
  · intro v hv1 hv2
    constructor
    · have := hmono (-1) v hv1
      rw [hn] at this
      exact this
    · have := hmono v 1 hv2
      rw [hp] at this
      exact this
  · simp [drawPath, drawPathAux, PathOp.point, h0, hp, hn]

/-- C6 (witness). -/
theorem c6_witness : sampleY { width := 4, height := 2 } 1 = 2 :=
  (c6_amplitude_mapping { width := 4, height := 2 } (by norm_num)).2.1

/-- C7: when a session is active and device selection succeeds, the trace of
the `SelectedDevice` handler splits into a prefix that pauses the old
stream and replaces its channel and that contains no build and no play
action, followed by a suffix in which the new stream is built — so the old
session is halted and its channel discarded strictly before the new session
is opened. -/
theorem c7_stop_before_open (app : AppState) (hostDevices : Except Unit (List String))
    (device : String) (s : StreamModel) (app2 : AppState) (tr : List Action)
    (hs : app.output_stream = some s)
    (hok : selectedDevice app hostDevices device = SelectOutcome.ok app2 tr) :
    ∃ tr1 tr2, tr = tr1 ++ tr2 ∧
      Action.pauseStream s.id ∈ tr1 ∧
      Action.newChannel app.next_id ∈ tr1 ∧
      (∀ a ∈ tr1, a.isBuild = false ∧ a.isPlay = false) ∧
      (∃ d, Action.buildStream d ∈ tr2) := by
  unfold selectedDevice selectFind at hok
  rw [hs] at hok
  dsimp only at hok
  cases hostDevices with
  | error e => simp at hok
  | ok names =>
    dsimp only at hok
    cases hfind : names.find? (fun n => n == device) with
    | none =>
      rw [hfind] at hok
      simp at hok
    | some dname =>
      rw [hfind] at hok
      dsimp only at hok
      simp only [SelectOutcome.ok.injEq] at hok
      obtain ⟨h1, h2⟩ := hok
      subst h2
      refine ⟨[Action.hideModal, Action.pauseStream s.id, Action.newChannel app.next_id],
        [Action.buildStream dname, Action.playStream (app.next_id + 1),
         Action.setPageWaveform, Action.setTheme], rfl, by simp, by simp, ?_, ⟨dname, by simp⟩⟩
      intro a ha
      simp only [List.mem_cons, List.not_mem_nil, or_false] at ha
      rcases ha with rfl | rfl | rfl <;> exact ⟨rfl, rfl⟩

/-- C7 (witness). -/
theorem c7_witness :
    ∃ tr1 tr2,
      ([Action.hideModal, Action.pauseStream 5, Action.newChannel 1,
        Action.buildStream "Mic", Action.playStream 2,
        Action.setPageWaveform, Action.setTheme] : List Action) = tr1 ++ tr2 ∧
      Action.pauseStream 5 ∈ tr1 ∧
      Action.newChannel 1 ∈ tr1 ∧
      (∀ a ∈ tr1, a.isBuild = false ∧ a.isPlay = false) ∧
      (∃ d, Action.buildStream d ∈ tr2) :=
  c7_stop_before_open appCapturing (Except.ok ["Mic"]) "Mic" { id := 5, device := "Mic" }
    { theme := ThemeModel.customGreenLight
      show_output_modal := false
      output_device_names := []
      page := Page.Waveform
      output_stream := some { id := 2, device := "Mic" }
      channel_id := 1
      channel := { queue := [], connected := true }
      next_id := 3 }
    [Action.hideModal, Action.pauseStream 5, Action.newChannel 1,
     Action.buildStream "Mic", Action.playStream 2,
     Action.setPageWaveform, Action.setTheme]
    rfl rfl

/-- C8 (counterexample): selecting the id "Nonexistent", which matches no
enumerated device, does not return a DeviceNotFound error: the handler
panics on the `expect` of the failed `find`, and by that point it has
already hidden the modal, paused the previously active stream (id 5) and
replaced its channel — the previous state was touched before the panic. -/
theorem c8_counterexample :
    selectedDevice appCapturing (Except.ok ["Mic"]) "Nonexistent" =
      SelectOutcome.panicked
        [Action.hideModal, Action.pauseStream 5, Action.newChannel 1] := rfl

/-- C8 (amended): for every device id that matches no enumerated device,
the `SelectedDevice` handler panics (the `expect` on `find`) instead of
returning an error, and the panic happens only after the modal has been
hidden and — when a session was active — after that session has been
paused and its channel replaced. -/
theorem c8_select_missing_panics (app : AppState) (names : List String) (device : String)
    (s : StreamModel) (hs : app.output_stream = some s)
    (hmiss : ∀ n ∈ names, (n == device) = false) :
    selectedDevice app (Except.ok names) device =
      SelectOutcome.panicked
        [Action.hideModal, Action.pauseStream s.id, Action.newChannel app.next_id] := by
  have hfind : names.find? (fun n => n == device) = none := by
    rw [List.find?_eq_none]
    intro x hx
    simp [hmiss x hx]
  unfold selectedDevice selectFind
  rw [hs]
  dsimp only
  rw [hfind]

/-- C8 (witness). -/
theorem c8_witness :
    selectedDevice appCapturing (Except.ok ["Mic", "Speakers"]) "Missing" =
      SelectOutcome.panicked
        [Action.hideModal, Action.pauseStream 5, Action.newChannel 1] :=
  c8_select_missing_panics appCapturing ["Mic", "Speakers"] "Missing"
    { id := 5, device := "Mic" } rfl (by decide)

/-- C9 (counterexample): when the host audio subsystem cannot be queried,
the `ShowOutputModal` handler does not return an enumeration error to the
caller — the `unwrap` on `output_devices()` panics, aborting the program. -/
theorem c9_counterexample : showOutputModal app0 (Except.error ()) = none := rfl

/-- C9 (amended): enumeration on a host with zero capture-capable devices
yields the empty device list with no error; but when the host query itself
fails, the handler panics on the `unwrap` instead of returning a
DeviceEnumerationError to the caller. -/
theorem c9_enumeration_behavior (app : AppState) :
    showOutputModal app (Except.ok []) =
      some { app with show_output_modal := true, output_device_names := [] } ∧
    showOutputModal app (Except.error ()) = none :=
  ⟨rfl, rfl⟩

/-- C10: pressing Escape on the waveform page only switches the displayed
page back to the main view: the stream field is left unchanged, the channel
and its identity are left unchanged, and no pause action is performed — the
capture session keeps running in the background. -/
theorem c10_escape_keeps_session (app : AppState) (h : app.page = Page.Waveform) :
    (escapePressed app).1.page = Page.Main ∧
    (escapePressed app).1.output_stream = app.output_stream ∧
    (escapePressed app).1.channel = app.channel ∧
    (escapePressed app).1.channel_id = app.channel_id ∧
    ∀ a ∈ (escapePressed app).2, a.isPause = false := by
  unfold escapePressed
  rw [h]
  refine ⟨rfl, rfl, rfl, rfl, ?_⟩
  intro a ha
  simp only [List.mem_cons, List.not_mem_nil, or_false] at ha
  rcases ha with rfl | rfl <;> rfl

/-- C10 (witness). -/
theorem c10_witness :
    (escapePressed appCapturing).1.page = Page.Main ∧
    (escapePressed appCapturing).1.output_stream = appCapturing.output_stream ∧
    (escapePressed appCapturing).1.channel = appCapturing.channel ∧
    (escapePressed appCapturing).1.channel_id = appCapturing.channel_id ∧
    ∀ a ∈ (escapePressed appCapturing).2, a.isPause = false :=
  c10_escape_keeps_session appCapturing rfl

end SteamIntro
